import Mathlib

/-!
# Verification of the reroute_fukuoka itinerary-planning engine

A shallow embedding, in Lean 4, of the planner subsystem of the
reroute_fukuoka repository (apps/api/services): the RAPTOR round-based
router (`raptor.py`), the per-challenge strategy bundles
(`planners/*.py`), the label-bucket Pareto insertion, the CSV time
normalization of the loaders (`planner_loader.py`), the TSP-assisted
city-loop stitcher (`planner_cityloop.py`), the bounded-priority-queue
push of the beam-search fallback (`planner.py`), and the boundary-sequence
construction.

Python `float` values that only flow through arithmetic and comparisons
(scores, metric values, distances, coordinates) are modelled as `ℚ`;
Python `int` as `Int`; `str` as `String`; `dict`s keyed by strings as
association lists; `set`s as duplicate-free lists.  The geometric metric
computation `_label_metrics` (convex hull, `atan2` bearings, haversine
radii) produces real-valued data through transcendental functions; it is
abstracted as an explicit `getMetrics` function argument wherever the
embedded code consumes it — every theorem about the router quantifies
over that argument, so each result holds in particular for the metric
function of the source.
-/

namespace Reroute

/-! ## Constants (`planner_constants.py`) -/

def START_TIME_MINUTES : Int := 7 * 60

def TRANSFER_BUFFER_MINUTES : Int := 3

def MAX_LABELS_PER_STOP : Nat := 6

def ALL_QUADRANTS_MASK : Nat := 1 ||| 2 ||| 4 ||| 8

/-! ## Data model (`planner_models.py`) -/

structure Station where
  code : String
  name : String
  lat : ℚ
  lon : ℚ
  deriving DecidableEq, Repr

structure JourneyLeg where
  line_id : String
  line_name : String
  trip_id : String
  from_code : String
  to_code : String
  depart : Int
  arrive : Int
  distance_km : ℚ
  stop_hops : Int
  deriving DecidableEq, Repr

structure Label where
  arrival : Int
  ride_minutes : Int
  distance_km : ℚ
  /-- `frozenset` of visited stop codes, modelled as a duplicate-free list. -/
  visited : List String
  quadrant_mask : Nat
  legs : List JourneyLeg
  score : ℚ
  stop_counts : List (String × Int)
  line_counts : List (String × Int)
  transfers : Int
  min_transfer_gap : Int
  deriving DecidableEq, Repr

structure LegPlan where
  line_id : String
  line_name : String
  trip_id : String
  from_code : String
  from_name : String
  to_code : String
  to_name : String
  depart : Int
  arrive : Int
  ride_minutes : Int
  distance_km : ℚ
  stop_hops : Int
  path : List (ℚ × ℚ)
  from_lat : ℚ
  from_lon : ℚ
  to_lat : ℚ
  to_lon : ℚ
  deriving DecidableEq, Repr

/-- Assembled itinerary.  The purely presentational fields of the source
dataclass (`title`, `tagline`, `theme_tags`, `badge`) carry no planning
content and are omitted. -/
structure ChallengePlan where
  challenge_id : String
  legs : List LegPlan
  start_stop_name : String
  wards : List String
  deriving DecidableEq, Repr

/-- The named entries of the metric dictionary built by `_label_metrics`
(`raptor.py`), all Python floats.  `max_radius_per_quadrant` appears here
because the City Loop scoring function reads that key, although
`_label_metrics` never writes it. -/
structure Metrics where
  unique_lines : ℚ
  unique_stops : ℚ
  quadrants : ℚ
  avg_radius : ℚ
  max_radius : ℚ
  center_ratio : ℚ
  hull_area : ℚ
  angle_span : ℚ
  turn_sum : ℚ
  repeat_penalty : ℚ
  short_leg_ratio : ℚ
  boundary_hits : ℚ
  boundary_ratio : ℚ
  boundary_progress : ℚ
  stop_repeat_total : ℚ
  stop_repeat_max : ℚ
  max_radius_per_quadrant : ℚ
  deriving DecidableEq, Repr

structure RouteTrip where
  trip_id : String
  departures : List Int
  arrivals : List Int
  segment_distances : List ℚ
  deriving DecidableEq, Repr

structure RouteData where
  line_id : String
  direction : String
  line_name : String
  stops : List String
  trips : List RouteTrip
  deriving DecidableEq, Repr

/-- The strategy bundle.  Function-valued fields mirror the closures of
`ChallengeConfig`; the display strings are omitted as in `ChallengePlan`. -/
structure ChallengeConfig where
  challenge_id : String
  require_quadrants : Bool
  max_rounds : Nat
  scoring_fn : Label → Metrics → ℚ
  dominance_fn : Label → Metrics → Label → Metrics → Bool
  accept_fn : Label → Metrics → Bool
  min_transfer_minutes : Int := TRANSFER_BUFFER_MINUTES
  max_stop_visits : Option Int := none
  max_line_visits : Option Int := none
  forbid_non_hakata_duplicates : Bool := false
  hakata_max_visits : Option Int := none

/-- The shared, per-refresh planner structures read by
`run_raptor_challenge` (`raptor.py`): dictionaries become association
lists, the `routes_by_stop` sets become lists. -/
structure PlannerShared where
  stations : List (String × Station)
  hakata_stops : List String
  quadrant_map : List (String × Nat)
  routes : List (String × RouteData)
  routes_by_stop : List (String × List String)
  deriving Repr

/-! ## Association-list and list-set helpers -/

/-- `d.get(k)` on a string-keyed dict. -/
def alookup {α : Type} (l : List (String × α)) (k : String) : Option α :=
  (l.find? (fun p => p.1 == k)).map (·.2)

/-- `d.get(k, default)`. -/
def alookupD {α : Type} (l : List (String × α)) (k : String) (dflt : α) : α :=
  (alookup l k).getD dflt

/-- `d[k] = v` (overwrite or append). -/
def aset {α : Type} (l : List (String × α)) (k : String) (v : α) :
    List (String × α) :=
  if (l.find? (fun p => p.1 == k)).isSome then
    l.map (fun p => if p.1 == k then (k, v) else p)
  else l ++ [(k, v)]

/-- `set.add` on a list-modelled set. -/
def listInsert (l : List String) (x : String) : List String :=
  if l.contains x then l else l ++ [x]

/-- Python `sorted(d.items())`: sort an association list by key. -/
def sortPairs (l : List (String × Int)) : List (String × Int) :=
  l.insertionSort (fun a b => (compare a.1 b.1).isLE)

/-! ## Challenge strategies (`planners/*.py`)

Each challenge module builds one `ChallengeConfig` whose closures are
transcribed below.  The metric dictionary lookups `metrics["..."]`
become field projections of `Metrics`. -/

/-- `dominance_fn` of `planners/longest_duration.py`. -/
def longestDurationDominance (a : Label) (ma : Metrics) (b : Label) (mb : Metrics) :
    Bool :=
  if a.ride_minutes ≥ b.ride_minutes
      ∧ ma.unique_lines ≥ mb.unique_lines
      ∧ a.arrival ≤ b.arrival then
    a.score ≥ b.score
  else
    false

/-- `scoring_fn` of `planners/longest_duration.py`; reads the enclosing
config's visit limits and the planner's origin stops. -/
def longestDurationScoring (hakata : List String) (maxStopVisits hakataMaxVisits : Option Int)
    (label : Label) (metrics : Metrics) : ℚ :=
  -- the `for stop, count in stop_counts.items()` guard:
  -- return -1.0 as soon as some count exceeds its limit
  let overLimit := label.stop_counts.any (fun sc =>
    let limit := if hakata.contains sc.1 then
        (match hakataMaxVisits with
         | some v => if v ≠ 0 then some v else maxStopVisits
         | none => maxStopVisits)
      else maxStopVisits
    match limit with
    | some lim => lim ≠ 0 ∧ sc.2 > lim
    | none => false)
  if overLimit then -1
  else
    (label.ride_minutes : ℚ) * 10000
      + metrics.unique_lines * 600
      + metrics.quadrants * 1800
      + metrics.avg_radius * 160
      + metrics.boundary_ratio * 2200
      - metrics.center_ratio * 4000
      - metrics.short_leg_ratio * 3000
      - metrics.repeat_penalty * 500
      - metrics.stop_repeat_total * 900
      - (label.transfers : ℚ) * 800

/-- `accept_fn` of `planners/longest_duration.py` (always true). -/
def longestDurationAccept (_ : Label) (_ : Metrics) : Bool := true

/-- `get_config` of `planners/longest_duration.py`. -/
def longestDurationConfig (hakata : List String) : ChallengeConfig where
  challenge_id := "longest-duration"
  require_quadrants := false
  max_rounds := 50
  scoring_fn := longestDurationScoring hakata (some 3) (some 3)
  dominance_fn := longestDurationDominance
  accept_fn := longestDurationAccept
  min_transfer_minutes := 5
  max_stop_visits := some 3
  max_line_visits := some 2
  hakata_max_visits := some 3

/-- `dominance_fn` of `planners/most_stops.py`. -/
def mostStopsDominance (a : Label) (ma : Metrics) (b : Label) (mb : Metrics) :
    Bool :=
  if ma.unique_stops ≥ mb.unique_stops ∧ a.arrival ≤ b.arrival then
    a.score ≥ b.score
  else
    false

/-- `dominance_fn` of `planners/city_loop.py`. -/
def cityLoopDominance (a : Label) (ma : Metrics) (b : Label) (mb : Metrics) :
    Bool :=
  if ma.quadrants ≥ mb.quadrants
      ∧ ma.boundary_ratio ≥ mb.boundary_ratio
      ∧ ma.hull_area ≥ mb.hull_area
      ∧ a.arrival ≤ b.arrival then
    a.score ≥ b.score
  else
    false

/-- `dominance_fn` of `planners/longest_distance.py`. -/
def longestDistanceDominance (a : Label) (ma : Metrics) (b : Label) (mb : Metrics) :
    Bool :=
  if a.distance_km ≥ b.distance_km
      ∧ ma.avg_radius ≥ mb.avg_radius
      ∧ ma.boundary_ratio ≥ mb.boundary_ratio
      ∧ a.arrival ≤ b.arrival then
    a.score ≥ b.score
  else
    false

/-- `accept_fn` of `planners/city_loop.py`. -/
def cityLoopAccept (_ : Label) (metrics : Metrics) : Bool :=
  metrics.quadrants == 4
    && decide (metrics.hull_area ≥ 25)
    && decide (metrics.avg_radius ≥ 3)
    && decide (metrics.angle_span ≥ 180)
    && decide (metrics.boundary_ratio ≥ 3 / 10)

/-! ## Strategy preference chain (`planners/*.py::plan`)

Each challenge's `plan(planner)` function invokes its strategies in a
fixed order and returns the first non-`None` result.  The three
invocations — `plan_city_loop_tsp(planner)`, `planner.run_beam_search(...)`
and `run_raptor_challenge(planner, config)` — are abstracted here as their
`Option ChallengePlan` outcomes, and each chain additionally returns the
list of strategies it actually invoked, in order. -/

inductive Strategy where
  | tsp
  | beam
  | raptor
  deriving DecidableEq, Repr

/-- `plan` of `planners/city_loop.py`: try `plan_city_loop_tsp`, then
`planner.run_beam_search(...)`, then `run_raptor_challenge`.  Returns the
result together with the trace of invoked strategies. -/
def cityLoopPlanChain (tspResult beamResult raptorResult : Option ChallengePlan) :
    Option ChallengePlan × List Strategy :=
  match tspResult with
  | some p => (some p, [Strategy.tsp])
  | none =>
    match beamResult with
    | some p => (some p, [Strategy.tsp, Strategy.beam])
    | none => (raptorResult, [Strategy.tsp, Strategy.beam, Strategy.raptor])

/-- `plan` of `planners/longest_duration.py`, `planners/most_stops.py`
and `planners/longest_distance.py`: try `planner.run_beam_search(...)`,
then `run_raptor_challenge`. -/
def nonLoopPlanChain (beamResult raptorResult : Option ChallengePlan) :
    Option ChallengePlan × List Strategy :=
  match beamResult with
  | some p => (some p, [Strategy.beam])
  | none => (raptorResult, [Strategy.beam, Strategy.raptor])

/-- The preference order asserted by the specification: TSP stitcher,
then RAPTOR, then beam search, first non-empty result wins. -/
def specClaimedChainLoop (tspResult beamResult raptorResult : Option ChallengePlan) :
    Option ChallengePlan :=
  match tspResult with
  | some p => some p
  | none =>
    match raptorResult with
    | some p => some p
    | none => beamResult

/-! ## Beam-search frontier push (`planner.py::PlannerService._run_search.push`)

`pq` is a Python `heapq` min-heap of `(priority, counter, state)`
triples, `priority = -score`.  `heapq.heappushpop(pq, item)` pushes
`item` and then pops the minimum of the resulting heap; the embedding
works at the level of the heap's multiset contents, with the minimum
taken by the lexicographic order on `(priority, counter)` that the heap
maintains. -/

structure PQEntry where
  priority : ℚ
  counter : Nat
  stateId : Nat
  deriving DecidableEq, Repr

/-- Lexicographic key order of the heap entries. -/
def pqLt (a b : PQEntry) : Bool :=
  decide (a.priority < b.priority)
    || (a.priority == b.priority && a.counter < b.counter)

/-- Remove one minimal entry (the one `heappop`/`heappushpop` returns). -/
def removeMin : List PQEntry → List PQEntry
  | [] => []
  | e :: rest =>
    match removeMinAux e rest with
    | (_, kept) => kept
where
  /-- Returns (minimum, remaining entries). -/
  removeMinAux (best : PQEntry) : List PQEntry → PQEntry × List PQEntry
    | [] => (best, [])
    | e :: rest =>
      if pqLt e best then
        let (m, kept) := removeMinAux e rest
        (m, best :: kept)
      else
        let (m, kept) := removeMinAux best rest
        (m, e :: kept)

/-- `push(state, priority)` of `_run_search`: when the queue already
holds `queue_limit` entries, `heappushpop` pushes the new entry and
removes the minimum of the enlarged heap; otherwise plain push. -/
def pushBounded (queueLimit : Nat) (pq : List PQEntry) (e : PQEntry) :
    List PQEntry :=
  if pq.length ≥ queueLimit then removeMin (e :: pq)
  else e :: pq

/-- Score carried by a queue entry (entries are pushed with
`priority = -score`). -/
def entryScore (e : PQEntry) : ℚ := -e.priority

/-! ## Boundary sequence closure (`planner_loader.py::build_boundary_sequence`)

The geometric selection of candidate stops (distance band around the
city polygon, inner-radius exclusion, `atan2` bearing) produces the
`selected` list of (angle, code) pairs; the bearings are transcendental,
so `selected` is taken as the input here and the remainder of the
function — sorting by angle, projecting to codes, wrapping with the
origin stop at both ends, and the final uniqueness pass — is transcribed
exactly (lines 282–298; `planner.py::_build_boundary_sequence` wraps and
deduplicates identically at lines 680–689, after an extra
angular-proximity filter on the candidates). -/

def boundarySequenceFromSelected (hakata : List String)
    (selected : List (ℚ × String)) : List String :=
  let sorted := selected.insertionSort
    (fun a b => decide (a.1 < b.1) || (a.1 == b.1 && (compare a.2 b.2).isLE))
  let filtered := sorted.map (·.2)
  let filtered := match hakata with
    | [] => filtered
    | h :: _ => [h] ++ filtered ++ [h]
  (filtered.foldl
    (fun (acc : List String × List String) code =>
      if acc.2.contains code then acc
      else (acc.1 ++ [code], acc.2 ++ [code]))
    ([], [])).1

/-! ## Shared-state discipline of the TSP stitcher
(`planner_cityloop.py::_assemble_city_loop_plan`, lines 176–183)

`hakata_stops` is the only shared planner field written anywhere on the
per-challenge planning path; the stitcher saves it, overwrites it with
the single tour origin for the duration of each point-to-point RAPTOR
call, and writes the saved value back afterwards.  The three successive
values of the shared field around one such call: -/

structure SharedState where
  hakata_stops : List String
  deriving DecidableEq, Repr

/-- The shared state while the point-to-point `run_raptor_challenge`
call executes (`service.hakata_stops = [from_stop]`). -/
def p2pDuringState (_s : SharedState) (from_stop : String) : SharedState :=
  { hakata_stops := [from_stop] }

/-- The shared state after the call
(`service.hakata_stops = original_hakata_stops`). -/
def p2pAfterState (s : SharedState) (_from_stop : String) : SharedState :=
  { hakata_stops := s.hakata_stops }

/-! ## City Loop scoring (`planners/city_loop.py::scoring_fn`) -/

def cityLoopScoring (label : Label) (m : Metrics) : ℚ :=
  if m.quadrants < 4 then
    m.quadrants * 1200
      + m.avg_radius * 80
      + m.boundary_ratio * 1800
      - m.stop_repeat_total * 1200
  else
    m.hull_area * 120
      + m.avg_radius * 220
      + m.angle_span * 35
      + m.turn_sum * 25
      + label.distance_km * 25
      + m.boundary_ratio * 8000
      + m.boundary_progress * 6000
      + m.max_radius_per_quadrant * 1000
      - m.center_ratio * 4500
      - m.repeat_penalty * 500
      - m.stop_repeat_total * 1500
      - (label.transfers : ℚ) * 900

/-- `get_config` of `planners/city_loop.py`. -/
def cityLoopConfig : ChallengeConfig where
  challenge_id := "city-loop"
  require_quadrants := true
  max_rounds := 50
  scoring_fn := cityLoopScoring
  dominance_fn := cityLoopDominance
  accept_fn := cityLoopAccept
  min_transfer_minutes := 5

/-! ## Label-bucket Pareto insertion (`raptor.py::_insert_label`) -/

/-- `bucket.sort(key=lambda lbl: lbl.score, reverse=True)`: stable sort by
score descending. -/
def scoreDescSort (l : List Label) : List Label :=
  l.insertionSort (fun a b => b.score ≤ a.score)

/-- `_insert_label` (`raptor.py` lines 321–348): reject the candidate when
an existing label dominates it; otherwise drop every existing label the
candidate dominates, append it, re-sort by score descending, and truncate
to `MAX_LABELS_PER_STOP`.  Returns (inserted?, new bucket). -/
def insertLabel (dominance : Label → Metrics → Label → Metrics → Bool)
    (getMetrics : Label → Metrics) (bucket : List Label) (label : Label)
    (labelMetrics : Metrics) : Bool × List Label :=
  if bucket.any (fun existing => dominance existing (getMetrics existing) label labelMetrics) then
    (false, bucket)
  else
    let pruned := bucket.filter
      (fun lbl => ¬ dominance label labelMetrics lbl (getMetrics lbl))
    let sorted := scoreDescSort (pruned ++ [label])
    (true, sorted.take MAX_LABELS_PER_STOP)

/-! ## The RAPTOR router (`raptor.py::run_raptor_challenge`)

The `metrics_cache`/`get_metrics` memoisation of the source is modelled
by passing the metric function `getMetrics` directly (memoisation of a
pure function is semantically invisible). -/

/-- Outcome of processing one scored extension (`raptor.py` lines
142–166): it is offered to the `(round+1, alighting stop)` bucket, and —
only when the insertion succeeded — recorded as an accepted candidate if
the alighting stop is an origin stop, at least 120 minutes have elapsed,
the quadrant requirement holds, and `config.accept_fn` holds. -/
structure ExtensionOutcome where
  inserted : Bool
  bucket : List Label
  recorded : Bool
  deriving Repr

def processScoredExtension (planner : PlannerShared) (config : ChallengeConfig)
    (getMetrics : Label → Metrics) (bucket : List Label)
    (scoredLabel : Label) (metrics : Metrics) (toStop : String) :
    ExtensionOutcome :=
  let ins := insertLabel config.dominance_fn getMetrics bucket scoredLabel metrics
  let recorded := ins.1
    && planner.hakata_stops.contains toStop
    && decide (scoredLabel.arrival ≥ START_TIME_MINUTES + 120)
    && (!config.require_quadrants || scoredLabel.quadrant_mask == ALL_QUADRANTS_MASK)
    && config.accept_fn scoredLabel metrics
  ⟨ins.1, ins.2, recorded⟩

/-- `_extend_label` (`raptor.py` lines 196–318). -/
def extendLabel (planner : PlannerShared) (config : ChallengeConfig)
    (base : Label) (route : RouteData) (trip : RouteTrip)
    (segmentIndex : Nat) (depart arrive : Int) : Option Label :=
  let from_code := route.stops.getD segmentIndex ""
  let to_code := route.stops.getD (segmentIndex + 1) ""
  -- avoid immediate return trips
  if (match base.legs.getLast? with
      | some ll => ll.from_code == to_code && ll.to_code == from_code
      | none => false) then none
  else if arrive ≤ depart then none
  else
    let distance_inc := trip.segment_distances.getD segmentIndex 0
    let visited := listInsert base.visited to_code
    let quadrant_mask := base.quadrant_mask ||| alookupD planner.quadrant_map to_code 0
    let ride_minutes := base.ride_minutes + max 0 (arrive - depart)
    let distance_km := base.distance_km + distance_inc
    let prev_leg := base.legs.getLast?
    let boarding_new_trip :=
      match prev_leg with
      | none => true
      | some pl => pl.trip_id != trip.trip_id || pl.line_id != route.line_id
    let gap : Option Int := prev_leg.map (fun pl => depart - pl.arrive)
    if boarding_new_trip && prev_leg.isSome
        && decide (gap.getD 0 < config.min_transfer_minutes) then
      none
    else
      let new_transfers :=
        if boarding_new_trip && prev_leg.isSome then base.transfers + 1 else base.transfers
      let new_min_gap :=
        if boarding_new_trip && prev_leg.isSome then
          min base.min_transfer_gap (gap.getD (10 ^ 9))
        else base.min_transfer_gap
      -- extend the last leg on the same trip, or board a new trip
      let legs :=
        if !base.legs.isEmpty && !boarding_new_trip then
          base.legs.dropLast ++
            (match base.legs.getLast? with
             | some last =>
               [{ last with
                    to_code := to_code
                    arrive := arrive
                    distance_km := last.distance_km + distance_inc
                    stop_hops := last.stop_hops + 1 }]
             | none => [])
        else
          base.legs ++
            [{ line_id := route.line_id
               line_name := route.line_name
               trip_id := trip.trip_id
               from_code := from_code
               to_code := to_code
               depart := depart
               arrive := arrive
               distance_km := distance_inc
               stop_hops := 1 }]
      let stop_counts₁ :=
        if base.legs.isEmpty then
          aset base.stop_counts from_code (alookupD base.stop_counts from_code 0 + 1)
        else base.stop_counts
      let current_visits := alookupD stop_counts₁ to_code 0
      -- `limit = config.hakata_max_visits or config.max_stop_visits` for origin stops
      let limit :=
        if planner.hakata_stops.contains to_code then
          match config.hakata_max_visits with
          | some v => if v ≠ 0 then some v else config.max_stop_visits
          | none => config.max_stop_visits
        else config.max_stop_visits
      if (match limit with
          | some lim => decide (current_visits ≥ lim)
          | none => false) then none
      else if config.forbid_non_hakata_duplicates
          && !planner.hakata_stops.contains to_code
          && decide (current_visits > 0) then none
      else
        let stop_counts₂ := sortPairs (aset stop_counts₁ to_code (current_visits + 1))
        if boarding_new_trip then
          let lc := alookupD base.line_counts route.line_id 0 + 1
          -- `if config.max_line_visits and line_counts[...] > config.max_line_visits`
          if (match config.max_line_visits with
              | some mlv => (mlv != 0) && decide (lc > mlv)
              | none => false) then none
          else
            some { arrival := arrive, ride_minutes := ride_minutes,
                   distance_km := distance_km, visited := visited,
                   quadrant_mask := quadrant_mask, legs := legs, score := 0,
                   stop_counts := stop_counts₂,
                   line_counts := sortPairs (aset base.line_counts route.line_id lc),
                   transfers := new_transfers, min_transfer_gap := new_min_gap }
        else
          some { arrival := arrive, ride_minutes := ride_minutes,
                 distance_km := distance_km, visited := visited,
                 quadrant_mask := quadrant_mask, legs := legs, score := 0,
                 stop_counts := stop_counts₂,
                 line_counts := sortPairs base.line_counts,
                 transfers := new_transfers, min_transfer_gap := new_min_gap }

/-- The mutable state of one RAPTOR round: the `(round+1)` buckets, the
stops marked for the next round, and the accepted candidates so far. -/
structure RaptorRoundState where
  nextRound : List (String × List Label)
  nextMarked : List String
  bestLabels : List Label

/-- The `for seg_idx in range(from_idx, len(route.stops) - 1)` walk of one
label along one trip (`raptor.py` lines 105–169), with the `boarded` /
`onboard_label` threading and the `break`/`continue` control flow. -/
def walkSegments (planner : PlannerShared) (config : ChallengeConfig)
    (getMetrics : Label → Metrics) (route : RouteData) (trip : RouteTrip)
    (timeLimit : Int) (label : Label) (earliestDepart : Int) :
    List Nat → Bool → Label → RaptorRoundState → RaptorRoundState
  | [], _, _, st => st
  | segIdx :: rest, boarded, onboard, st =>
    let depart := trip.departures.getD segIdx 0
    let arrive := trip.arrivals.getD (segIdx + 1) 0
    if ¬ boarded ∧ depart < earliestDepart then
      walkSegments planner config getMetrics route trip timeLimit label earliestDepart
        rest boarded onboard st
    else
      let base := if boarded then onboard else label
      match extendLabel planner config base route trip segIdx depart arrive with
      | none =>
        if boarded then st  -- stop extending this path
        else
          walkSegments planner config getMetrics route trip timeLimit label earliestDepart
            rest boarded onboard st
      | some newLabel =>
        if newLabel.arrival > timeLimit then st
        else
          let metrics := getMetrics newLabel
          let scored := { newLabel with score := config.scoring_fn newLabel metrics }
          let toStop := route.stops.getD (segIdx + 1) ""
          let outcome := processScoredExtension planner config getMetrics
            (alookupD st.nextRound toStop []) scored metrics toStop
          if outcome.inserted then
            let st' : RaptorRoundState :=
              { nextRound := aset st.nextRound toStop outcome.bucket
                nextMarked := listInsert st.nextMarked toStop
                bestLabels :=
                  if outcome.recorded then st.bestLabels ++ [scored] else st.bestLabels }
            walkSegments planner config getMetrics route trip timeLimit label earliestDepart
              rest true scored st'
          else if boarded then st  -- dominated, stop exploring this path
          else
            walkSegments planner config getMetrics route trip timeLimit label earliestDepart
              rest boarded onboard st

/-- One trip of one route: for every boarding index and every label held
at that (marked) stop in the current round, walk the segments. -/
def scanTrip (planner : PlannerShared) (config : ChallengeConfig)
    (getMetrics : Label → Metrics) (currentRound : List (String × List Label))
    (timeLimit : Int) (route : RouteData) (trip : RouteTrip)
    (st : RaptorRoundState) : RaptorRoundState :=
  (route.stops.dropLast.enum).foldl
    (fun st p =>
      let fromIdx := p.1
      let stopCode := p.2
      match alookup currentRound stopCode with
      | none => st
      | some labels =>
        labels.foldl
          (fun st label =>
            let earliest := label.arrival + config.min_transfer_minutes
            walkSegments planner config getMetrics route trip timeLimit label earliest
              (List.range' fromIdx (route.stops.length - 1 - fromIdx)) false label st)
          st)
    st

def scanRoute (planner : PlannerShared) (config : ChallengeConfig)
    (getMetrics : Label → Metrics) (currentRound : List (String × List Label))
    (timeLimit : Int) (route : RouteData) (st : RaptorRoundState) :
    RaptorRoundState :=
  route.trips.foldl
    (fun st trip => scanTrip planner config getMetrics currentRound timeLimit route trip st)
    st

/-- One round of the main RAPTOR loop: collect the routes serving the
marked stops and scan each.  Python iterates `routes_to_scan` as a `set`
whose order is unspecified; the embedding fixes first-encounter order. -/
def runRound (planner : PlannerShared) (config : ChallengeConfig)
    (getMetrics : Label → Metrics) (timeLimit : Int)
    (currentRound : List (String × List Label)) (marked : List String)
    (best : List Label) : RaptorRoundState :=
  let routesToScan := marked.foldl
    (fun acc stop => (alookupD planner.routes_by_stop stop []).foldl listInsert acc) []
  routesToScan.foldl
    (fun st routeId =>
      match alookup planner.routes routeId with
      | none => st
      | some route => scanRoute planner config getMetrics currentRound timeLimit route st)
    ⟨[], [], best⟩

/-- The round loop (`for round_idx in range(config.max_rounds)` with the
`if not marked_stops: break` exit), with the round counter as fuel. -/
def runRounds (planner : PlannerShared) (config : ChallengeConfig)
    (getMetrics : Label → Metrics) (timeLimit : Int) :
    Nat → List (String × List Label) → List String → List Label → List Label
  | 0, _, _, best => best
  | n + 1, current, marked, best =>
    if marked.isEmpty then best
    else
      let st := runRound planner config getMetrics timeLimit current marked best
      runRounds planner config getMetrics timeLimit n st.nextRound st.nextMarked st.bestLabels

/-- The round-0 seed label of one origin stop (`raptor.py` lines 55–69). -/
def seedLabel (planner : PlannerShared) (stopCode : String) : Label where
  arrival := START_TIME_MINUTES
  ride_minutes := 0
  distance_km := 0
  visited := [stopCode]
  quadrant_mask := alookupD planner.quadrant_map stopCode 0
  legs := []
  score := 0
  stop_counts := [(stopCode, 1)]
  line_counts := []
  transfers := 0
  min_transfer_gap := 10 ^ 9

/-- Round-0 initialisation: one scored seed label per origin stop, all
origin stops marked. -/
def seedRound (planner : PlannerShared) (config : ChallengeConfig)
    (getMetrics : Label → Metrics) :
    List (String × List Label) × List String :=
  planner.hakata_stops.foldl
    (fun acc stopCode =>
      let base := seedLabel planner stopCode
      let scored := { base with score := config.scoring_fn base (getMetrics base) }
      (aset acc.1 stopCode (alookupD acc.1 stopCode [] ++ [scored]),
       listInsert acc.2 stopCode))
    ([], [])

/-- `label_leg_to_plan` (`planner_utils.py`). -/
def labelLegToPlan (stations : List (String × Station)) (leg : JourneyLeg) : LegPlan :=
  let from_station := alookup stations leg.from_code
  let to_station := alookup stations leg.to_code
  let from_name := match from_station with | some st => st.name | none => leg.from_code
  let to_name := match to_station with | some st => st.name | none => leg.to_code
  let from_lat := match from_station with | some st => st.lat | none => 0
  let from_lon := match from_station with | some st => st.lon | none => 0
  let to_lat := match to_station with | some st => st.lat | none => 0
  let to_lon := match to_station with | some st => st.lon | none => 0
  { line_id := leg.line_id, line_name := leg.line_name, trip_id := leg.trip_id,
    from_code := leg.from_code, from_name := from_name,
    to_code := leg.to_code, to_name := to_name,
    depart := leg.depart, arrive := leg.arrive,
    ride_minutes := max 0 (leg.arrive - leg.depart),
    distance_km := leg.distance_km, stop_hops := leg.stop_hops,
    path := [(from_lat, from_lon), (to_lat, to_lon)],
    from_lat := from_lat, from_lon := from_lon,
    to_lat := to_lat, to_lon := to_lon }

/-- `derive_quadrant_labels` (`planner_utils.py`). -/
def deriveQuadrantLabels (legs : List LegPlan)
    (quadrantMap : List (String × Nat)) : List String :=
  let visitedBits := legs.foldl
    (fun acc leg =>
      acc ++ [alookupD quadrantMap leg.from_code 0, alookupD quadrantMap leg.to_code 0])
    []
  let out := [((1 : Nat), "福岡市北東エリア"), (2, "福岡市南東エリア"),
              (4, "福岡市南西エリア"), (8, "福岡市北西エリア")].foldl
    (fun acc p => if visitedBits.contains p.1 then acc ++ [p.2] else acc) []
  if out.isEmpty then ["福岡市内"] else out

/-- `best_labels.sort(key=lambda lbl: lbl.score, reverse=True);
best_labels[0]` — the highest-scoring accepted candidate (first of them
in insertion order, by sort stability). -/
def pickBest (labels : List Label) : Option Label :=
  match scoreDescSort labels with
  | [] => none
  | l :: _ => some l

/-- `run_raptor_challenge` (`raptor.py` lines 26–193). -/
def runRaptorChallenge (planner : PlannerShared) (config : ChallengeConfig)
    (getMetrics : Label → Metrics) : Option ChallengePlan :=
  if planner.routes.isEmpty then none
  else
    let seeded := seedRound planner config getMetrics
    let timeLimit := START_TIME_MINUTES + 24 * 60
    let best := runRounds planner config getMetrics timeLimit
      config.max_rounds seeded.1 seeded.2 []
    match pickBest best with
    | none => none
    | some selected =>
      let legs := selected.legs.map (labelLegToPlan planner.stations)
      -- `planner.stations[planner.hakata_stops[0]].name` (a missing
      -- station key raises in Python; the fallback name is reused here)
      let startName :=
        match planner.hakata_stops with
        | [] => "博多駅"
        | h :: _ =>
          match alookup planner.stations h with
          | some st => st.name
          | none => "博多駅"
      some { challenge_id := config.challenge_id, legs := legs,
             start_stop_name := startName,
             wards := deriveQuadrantLabels legs planner.quadrant_map }

/-! ## Loader time normalization (`planner_loader.py`)

`haversine_km` (transcendental) is passed in as `hav`; nothing proved
below depends on its value. -/

structure TripEdge where
  line_id : String
  line_name : String
  trip_id : String
  direction : String
  service_date : String
  from_code : String
  from_name : String
  to_code : String
  to_name : String
  depart : Int
  arrive : Int
  distance_km : ℚ
  from_lat : ℚ
  from_lon : ℚ
  to_lat : ℚ
  to_lon : ℚ
  deriving DecidableEq, Repr

/-- ASCII whitespace, for Python's `str.strip()`. -/
def isSpaceChar (c : Char) : Bool :=
  c == ' ' || c == '\t' || c == '\n' || c == '\r'

/-- `raw.strip()` on the character list. -/
def trimChars (cs : List Char) : List Char :=
  ((cs.dropWhile isSpaceChar).reverse.dropWhile isSpaceChar).reverse

def digitVal (c : Char) : Option Nat :=
  if 48 ≤ c.toNat ∧ c.toNat ≤ 57 then some (c.toNat - 48) else none

/-- Digit-string parse (`int(...)` on an all-digit slice). -/
def parseNatChars : List Char → Option Nat
  | [] => none
  | c :: cs =>
    (c :: cs).foldl
      (fun acc ch =>
        match acc, digitVal ch with
        | some n, some d => some (n * 10 + d)
        | _, _ => none)
      (some 0)

/-- `int(...)` on a slice: optional sign followed by digits (Python
additionally tolerates surrounding whitespace inside the slice). -/
def parseIntChars : List Char → Option Int
  | [] => none
  | '-' :: rest => (parseNatChars rest).map (fun n => -(n : Int))
  | '+' :: rest => (parseNatChars rest).map (fun n => (n : Int))
  | cs => (parseNatChars cs).map (fun n => (n : Int))

/-- `parse_segment_minutes` (`planner_loader.py` lines 510–523). -/
def parseSegmentMinutes (raw : Option String) : Option Int :=
  match raw with
  | none => none
  | some r =>
    if r = "" then none
    else
      let cs := trimChars r.toList
      if cs.length < 5 ∨ cs.get? 2 ≠ some ':' then none
      else
        match parseIntChars (cs.take 2), parseIntChars ((cs.drop 3).take 2) with
        | some hours, some minutes => some (hours * 60 + minutes)
        | _, _ => none

/-- One CSV row of a `segments_*.csv` file, restricted to the columns
`load_segment_edges` reads. -/
structure SegmentRow where
  line_id : String
  direction : String
  service_date : String
  from_stop : String
  to_stop : String
  depart : Option String
  arrive : Option String
  trip_id : Option String
  segment_id : Option String
  from_name : Option String
  to_name : Option String
  deriving Repr

/-- Python `a or b` on strings (empty string falls through). -/
def pyOr (a : Option String) (b : String) : String :=
  match a with
  | some s => if s = "" then b else s
  | none => b

/-- `load_segment_edges` (`planner_loader.py` lines 329–387): row filter,
time parsing, and the midnight normalization `if arrive <= depart:
arrive += 1440`. -/
def loadSegmentEdges (eligible : List String) (stations : List (String × Station))
    (lineNames : List (String × String)) (hav : Station → Station → ℚ) :
    List SegmentRow → List TripEdge
  | [] => []
  | row :: rest =>
    (if ¬ eligible.contains row.line_id then []
     else
       match alookup stations row.from_stop, alookup stations row.to_stop with
       | some stA, some stB =>
         match parseSegmentMinutes row.depart, parseSegmentMinutes row.arrive with
         | some depart, some arrive₀ =>
           let arrive := if arrive₀ ≤ depart then arrive₀ + 1440 else arrive₀
           let trip_identifier := pyOr row.trip_id (pyOr row.segment_id
             (row.line_id ++ "-" ++ row.from_stop ++ "-" ++ row.to_stop))
           [{ line_id := row.line_id,
              line_name := alookupD lineNames row.line_id row.line_id,
              trip_id := trip_identifier,
              direction := row.direction,
              service_date := row.service_date,
              from_code := row.from_stop,
              from_name := pyOr row.from_name stA.name,
              to_code := row.to_stop,
              to_name := pyOr row.to_name stB.name,
              depart := depart, arrive := arrive,
              distance_km := hav stA stB,
              from_lat := stA.lat, from_lon := stA.lon,
              to_lat := stB.lat, to_lon := stB.lon }]
         | _, _ => []
       | _, _ => [])
      ++ loadSegmentEdges eligible stations lineNames hav rest

/-- One row of one trip of a `timetable_*.csv` file as consumed by
`rows_to_edges`.  `dep`/`arr` carry the minute count that
`parse_datetime` extracts from the raw text (`none` when unparseable);
the string-to-datetime step itself is outside the normalization logic
under study. -/
structure TimetableRow where
  station_code : String
  dep : Option Int
  arr : Option Int
  deriving Repr

/-- The `normalize_time` closure of `rows_to_edges` (`planner_loader.py`
lines 449–462): threads `(prev_minutes, rollover)` and, on a drop of
more than 600 minutes, adds 1440 to the accumulated rollover — the
normalized value is raw + rollover, never wrapped modulo 1440. -/
def normalizeTime (state : Option Int × Int) (raw : Option Int) :
    (Option Int × Int) × Option Int :=
  match raw with
  | none => (state, none)
  | some minutes =>
    let prev := state.1
    let roll := state.2
    let roll' :=
      match prev with
      | some p => if minutes + roll + 600 < p then roll + 1440 else roll
      | none => roll
    let m := minutes + roll'
    ((some m, roll'), some m)

/-- The `enriched` pass of `rows_to_edges`: normalize `dep` then `arr` of
each row in order, threading the rollover state. -/
def enrichRows : (Option Int × Int) → List TimetableRow →
    List (String × Option Int × Option Int)
  | _, [] => []
  | st, row :: rest =>
    let depStep := normalizeTime st row.dep
    let arrStep := normalizeTime depStep.1 row.arr
    (row.station_code, depStep.2, arrStep.2) :: enrichRows arrStep.1 rest

/-- The edge-emission pass of `rows_to_edges` (`planner_loader.py` lines
476–507): consecutive enriched rows become edges, skipping unknown
stations, missing times, and non-increasing `arrive <= depart` pairs. -/
def emitTimetableEdges (stations : List (String × Station))
    (lineNames : List (String × String)) (hav : Station → Station → ℚ)
    (line_id direction service_date trip_id : String) :
    List (String × Option Int × Option Int) → List TripEdge
  | [] => []
  | [_] => []
  | fromRow :: toRow :: rest =>
    (match alookup stations fromRow.1, alookup stations toRow.1 with
     | some stA, some stB =>
       match fromRow.2.1, toRow.2.2 with
       | some depart, some arrive =>
         if arrive ≤ depart then []
         else
           [{ line_id := line_id,
              line_name := alookupD lineNames line_id line_id,
              trip_id := trip_id, direction := direction,
              service_date := service_date,
              from_code := fromRow.1, from_name := stA.name,
              to_code := toRow.1, to_name := stB.name,
              depart := depart, arrive := arrive,
              distance_km := hav stA stB,
              from_lat := stA.lat, from_lon := stA.lon,
              to_lat := stB.lat, to_lon := stB.lon }]
       | _, _ => []
     | _, _ => [])
      ++ emitTimetableEdges stations lineNames hav line_id direction service_date trip_id
          (toRow :: rest)

/-- `rows_to_edges` (`planner_loader.py` lines 432–507). -/
def rowsToEdges (stations : List (String × Station))
    (lineNames : List (String × String)) (hav : Station → Station → ℚ)
    (line_id direction service_date trip_id : String)
    (rows : List TimetableRow) : List TripEdge :=
  emitTimetableEdges stations lineNames hav line_id direction service_date trip_id
    (enrichRows (none, 0) rows)

/-! ## TSP-assisted city-loop stitcher (`planner_cityloop.py`)

The point-to-point router — one `run_raptor_challenge` call on a
single-origin clone of the service with an exact-destination accept
function — is abstracted as `p2p from_stop to_stop : Option (List
LegPlan)` (the legs of the plan it returns, `none` for no plan); the
stitching control flow, 24-hour cutoff, and quadrant validation are
transcribed from the source.  Candidate tours are taken as a parameter
standing for the output of `_generate_tsp_sequences`. -/

/-- The quadrant-mask accumulation of `_city_loop_plan_is_valid`
(`planner_cityloop.py` lines 226–231): the first origin stop's quadrant,
OR-ed with both endpoints of every leg. -/
def cityLoopQuadMask (quadMap : List (String × Nat)) (hakata : List String)
    (legs : List LegPlan) : Nat :=
  let mask0 :=
    match hakata with
    | [] => 0
    | h :: _ => alookupD quadMap h 0
  legs.foldl
    (fun m leg => m ||| alookupD quadMap leg.from_code 0 ||| alookupD quadMap leg.to_code 0)
    mask0

/-- `_city_loop_plan_is_valid` (`planner_cityloop.py` lines 218–235). -/
def cityLoopPlanIsValid (quadMap : List (String × Nat)) (hakata : List String)
    (legs : List LegPlan) (finalArrival : Int) : Bool :=
  if legs.isEmpty then false
  else if finalArrival - START_TIME_MINUTES > 24 * 60 then false
  else cityLoopQuadMask quadMap hakata legs == ALL_QUADRANTS_MASK

/-- The stitching loop of `_assemble_city_loop_plan` (lines 156–194):
per consecutive pair, call the point-to-point router, concatenate its
legs, advance `current_time` to the last leg's arrival, and abort when
the 24-hour horizon is exceeded or a segment has no route. -/
def stitchSequence (p2p : String → String → Option (List LegPlan)) :
    List (String × String) → List LegPlan → Int → Option (List LegPlan × Int)
  | [], legs, t => some (legs, t)
  | (fromStop, toStop) :: rest, legs, t =>
    if fromStop == toStop then stitchSequence p2p rest legs t
    else
      match p2p fromStop toStop with
      | none => none
      | some planLegs =>
        let legs' := legs ++ planLegs
        let t' :=
          match planLegs.getLast? with
          | some last => last.arrive
          | none => t
        if t' - START_TIME_MINUTES > 24 * 60 then none
        else stitchSequence p2p rest legs' t'

/-- `_assemble_city_loop_plan` (`planner_cityloop.py` lines 149–215). -/
def assembleCityLoopPlan (quadMap : List (String × Nat)) (hakata : List String)
    (stations : List (String × Station))
    (p2p : String → String → Option (List LegPlan))
    (sequence : List String) : Option ChallengePlan :=
  if sequence.length < 4 then none
  else
    match stitchSequence p2p (sequence.zip (sequence.drop 1)) [] START_TIME_MINUTES with
    | none => none
    | some st =>
      if cityLoopPlanIsValid quadMap hakata st.1 st.2 then
        let startName :=
          match hakata with
          | [] => "博多駅"
          | h :: _ =>
            match alookup stations h with
            | some s => s.name
            | none => "博多駅"
        some { challenge_id := "city-loop", legs := st.1,
               start_stop_name := startName,
               wards := deriveQuadrantLabels st.1 quadMap }
      else none

/-- The candidate loop of `plan_city_loop_tsp` (lines 36–44): assemble
each candidate tour in order, return the first success, `none` when
every candidate fails (the caller then falls back per
`planners/city_loop.py::plan`). -/
def planCityLoopTspOver (quadMap : List (String × Nat)) (hakata : List String)
    (stations : List (String × Station))
    (p2p : String → String → Option (List LegPlan)) :
    List (List String) → Option ChallengePlan
  | [] => none
  | seq :: rest =>
    match assembleCityLoopPlan quadMap hakata stations p2p seq with
    | some p => some p
    | none => planCityLoopTspOver quadMap hakata stations p2p rest

/-! # Theorems -/

/-! ## C1 — strategy preference order -/

/-- A plan as the beam search would return it (distinct from the RAPTOR
one below). -/
def beamPlanExample : ChallengePlan :=
  { challenge_id := "city-loop", legs := [], start_stop_name := "beam", wards := [] }

def raptorPlanExample : ChallengePlan :=
  { challenge_id := "city-loop", legs := [], start_stop_name := "raptor", wards := [] }

/-- C1, counterexample: the claim puts RAPTOR before beam search.  In the
code (`planners/city_loop.py::plan`, and identically in the non-loop
planners), when the TSP stitcher yields nothing and the beam search
yields a plan, that beam plan is returned and RAPTOR is never invoked —
even though RAPTOR would have produced a (different) plan, which the
claimed TSP → RAPTOR → beam preference order would have selected. -/
theorem c1_beam_tried_before_raptor :
    (cityLoopPlanChain none (some beamPlanExample) (some raptorPlanExample)).1
        = some beamPlanExample
  ∧ specClaimedChainLoop none (some beamPlanExample) (some raptorPlanExample)
        = some raptorPlanExample
  ∧ beamPlanExample ≠ raptorPlanExample
  ∧ Strategy.raptor ∉ (cityLoopPlanChain none (some beamPlanExample)
        (some raptorPlanExample)).2 := by
  refine ⟨rfl, rfl, by decide, by decide⟩

/-- C1, amended: the assembler tries TSP stitcher (loop challenge only),
then beam search, then RAPTOR, in that order; the first strategy
returning a plan wins, and a later strategy is invoked only when every
earlier one returned no plan (witnessed by the invocation traces). -/
theorem c1_preference_order :
    (∀ t b r : Option ChallengePlan,
      (cityLoopPlanChain t b r).1 = t.orElse (fun _ => b.orElse (fun _ => r))
      ∧ (cityLoopPlanChain t b r).2 =
          (if t.isSome then [Strategy.tsp]
           else if b.isSome then [Strategy.tsp, Strategy.beam]
           else [Strategy.tsp, Strategy.beam, Strategy.raptor]))
  ∧ (∀ b r : Option ChallengePlan,
      (nonLoopPlanChain b r).1 = b.orElse (fun _ => r)
      ∧ (nonLoopPlanChain b r).2 =
          (if b.isSome then [Strategy.beam] else [Strategy.beam, Strategy.raptor])) := by
  constructor
  · rintro (_ | t) (_ | b) (_ | r) <;>
      simp [cityLoopPlanChain, Option.orElse]
  · rintro (_ | b) (_ | r) <;>
      simp [nonLoopPlanChain, Option.orElse]

/-! ## C4 — dominance is a preorder, not a strict partial order -/

theorem longestDurationDominance_iff {a : Label} {ma : Metrics} {b : Label}
    {mb : Metrics} :
    longestDurationDominance a ma b mb = true ↔
      (a.ride_minutes ≥ b.ride_minutes ∧ ma.unique_lines ≥ mb.unique_lines
        ∧ a.arrival ≤ b.arrival) ∧ a.score ≥ b.score := by
  unfold longestDurationDominance
  split <;> simp_all

theorem mostStopsDominance_iff {a : Label} {ma : Metrics} {b : Label}
    {mb : Metrics} :
    mostStopsDominance a ma b mb = true ↔
      (ma.unique_stops ≥ mb.unique_stops ∧ a.arrival ≤ b.arrival)
        ∧ a.score ≥ b.score := by
  unfold mostStopsDominance
  split <;> simp_all

theorem cityLoopDominance_iff {a : Label} {ma : Metrics} {b : Label}
    {mb : Metrics} :
    cityLoopDominance a ma b mb = true ↔
      (ma.quadrants ≥ mb.quadrants ∧ ma.boundary_ratio ≥ mb.boundary_ratio
        ∧ ma.hull_area ≥ mb.hull_area ∧ a.arrival ≤ b.arrival)
        ∧ a.score ≥ b.score := by
  unfold cityLoopDominance
  split <;> simp_all

theorem longestDistanceDominance_iff {a : Label} {ma : Metrics} {b : Label}
    {mb : Metrics} :
    longestDistanceDominance a ma b mb = true ↔
      (a.distance_km ≥ b.distance_km ∧ ma.avg_radius ≥ mb.avg_radius
        ∧ ma.boundary_ratio ≥ mb.boundary_ratio ∧ a.arrival ≤ b.arrival)
        ∧ a.score ≥ b.score := by
  unfold longestDistanceDominance
  split <;> simp_all

/-- A concrete label/metrics pair on which every challenge's dominance
relation is reflexive. -/
def c4Label : Label :=
  { arrival := 500, ride_minutes := 10, distance_km := 2, visited := ["O"],
    quadrant_mask := 15, legs := [], score := 7, stop_counts := [("O", 1)],
    line_counts := [], transfers := 0, min_transfer_gap := 10 ^ 9 }

def c4Metrics : Metrics :=
  { unique_lines := 1, unique_stops := 1, quadrants := 4, avg_radius := 5,
    max_radius := 6, center_ratio := 0, hull_area := 30, angle_span := 200,
    turn_sum := 100, repeat_penalty := 0, short_leg_ratio := 0,
    boundary_hits := 2, boundary_ratio := 1, boundary_progress := 1,
    stop_repeat_total := 0, stop_repeat_max := 1, max_radius_per_quadrant := 7 }

/-- C4, counterexample: the claim asserts irreflexivity
(`dominance_fn(a, m_a, a, m_a)` is false for every label).  All four
dominance predicates use only non-strict comparisons, so a label always
dominates itself — here evaluated on a concrete label. -/
theorem c4_dominance_not_irreflexive :
    longestDurationDominance c4Label c4Metrics c4Label c4Metrics = true
  ∧ mostStopsDominance c4Label c4Metrics c4Label c4Metrics = true
  ∧ cityLoopDominance c4Label c4Metrics c4Label c4Metrics = true
  ∧ longestDistanceDominance c4Label c4Metrics c4Label c4Metrics = true := by
  refine ⟨?_, ?_, ?_, ?_⟩
  · rw [longestDurationDominance_iff]
    exact ⟨⟨le_refl _, le_refl _, le_refl _⟩, le_refl _⟩
  · rw [mostStopsDominance_iff]
    exact ⟨⟨le_refl _, le_refl _⟩, le_refl _⟩
  · rw [cityLoopDominance_iff]
    exact ⟨⟨le_refl _, le_refl _, le_refl _, le_refl _⟩, le_refl _⟩
  · rw [longestDistanceDominance_iff]
    exact ⟨⟨le_refl _, le_refl _, le_refl _, le_refl _⟩, le_refl _⟩

/-- C4, amended: each challenge's `dominance_fn` is a preorder on
labels-with-metrics — reflexive (every label dominates itself, since all
comparison axes are non-strict) and transitive — rather than the claimed
strict partial order. -/
theorem c4_dominance_reflexive_and_transitive :
    ((∀ a ma, longestDurationDominance a ma a ma = true)
      ∧ ∀ a ma b mb c mc, longestDurationDominance a ma b mb = true →
          longestDurationDominance b mb c mc = true →
          longestDurationDominance a ma c mc = true)
  ∧ ((∀ a ma, mostStopsDominance a ma a ma = true)
      ∧ ∀ a ma b mb c mc, mostStopsDominance a ma b mb = true →
          mostStopsDominance b mb c mc = true →
          mostStopsDominance a ma c mc = true)
  ∧ ((∀ a ma, cityLoopDominance a ma a ma = true)
      ∧ ∀ a ma b mb c mc, cityLoopDominance a ma b mb = true →
          cityLoopDominance b mb c mc = true →
          cityLoopDominance a ma c mc = true)
  ∧ ((∀ a ma, longestDistanceDominance a ma a ma = true)
      ∧ ∀ a ma b mb c mc, longestDistanceDominance a ma b mb = true →
          longestDistanceDominance b mb c mc = true →
          longestDistanceDominance a ma c mc = true) := by
  refine ⟨⟨?_, ?_⟩, ⟨?_, ?_⟩, ⟨?_, ?_⟩, ⟨?_, ?_⟩⟩
  · intro a ma; rw [longestDurationDominance_iff]; exact ⟨⟨le_refl _, le_refl _, le_refl _⟩, le_refl _⟩
  · intro a ma b mb c mc hab hbc
    rw [longestDurationDominance_iff] at *
    obtain ⟨⟨h1, h2, h3⟩, h4⟩ := hab
    obtain ⟨⟨g1, g2, g3⟩, g4⟩ := hbc
    exact ⟨⟨le_trans g1 h1, le_trans g2 h2, le_trans h3 g3⟩, le_trans g4 h4⟩
  · intro a ma; rw [mostStopsDominance_iff]; exact ⟨⟨le_refl _, le_refl _⟩, le_refl _⟩
  · intro a ma b mb c mc hab hbc
    rw [mostStopsDominance_iff] at *
    obtain ⟨⟨h1, h2⟩, h3⟩ := hab
    obtain ⟨⟨g1, g2⟩, g3⟩ := hbc
    exact ⟨⟨le_trans g1 h1, le_trans h2 g2⟩, le_trans g3 h3⟩
  · intro a ma; rw [cityLoopDominance_iff]; exact ⟨⟨le_refl _, le_refl _, le_refl _, le_refl _⟩, le_refl _⟩
  · intro a ma b mb c mc hab hbc
    rw [cityLoopDominance_iff] at *
    obtain ⟨⟨h1, h2, h3, h4⟩, h5⟩ := hab
    obtain ⟨⟨g1, g2, g3, g4⟩, g5⟩ := hbc
    exact ⟨⟨le_trans g1 h1, le_trans g2 h2, le_trans g3 h3, le_trans h4 g4⟩, le_trans g5 h5⟩
  · intro a ma; rw [longestDistanceDominance_iff]; exact ⟨⟨le_refl _, le_refl _, le_refl _, le_refl _⟩, le_refl _⟩
  · intro a ma b mb c mc hab hbc
    rw [longestDistanceDominance_iff] at *
    obtain ⟨⟨h1, h2, h3, h4⟩, h5⟩ := hab
    obtain ⟨⟨g1, g2, g3, g4⟩, g5⟩ := hbc
    exact ⟨⟨le_trans g1 h1, le_trans g2 h2, le_trans g3 h3, le_trans h4 g4⟩, le_trans g5 h5⟩

/-- C4, witness: the amended theorem applied at a concrete label triple
(transitivity of the Longest Duration dominance, hypotheses discharged
by evaluation). -/
theorem c4_dominance_witness :
    longestDurationDominance c4Label c4Metrics c4Label c4Metrics = true :=
  (c4_dominance_reflexive_and_transitive.1.2 c4Label c4Metrics c4Label c4Metrics
    c4Label c4Metrics
    (longestDurationDominance_iff.mpr ⟨⟨le_refl _, le_refl _, le_refl _⟩, le_refl _⟩)
    (longestDurationDominance_iff.mpr ⟨⟨le_refl _, le_refl _, le_refl _⟩, le_refl _⟩))

/-! ## C2 — acceptance also requires surviving bucket insertion -/

def c2Planner : PlannerShared :=
  { stations := [], hakata_stops := ["O"], quadrant_map := [],
    routes := [], routes_by_stop := [] }

def c2Label : Label :=
  { arrival := 600, ride_minutes := 60, distance_km := 10, visited := ["O"],
    quadrant_mask := 15, legs := [], score := 100, stop_counts := [("O", 1)],
    line_counts := [], transfers := 1, min_transfer_gap := 10 }

def c2Metrics : Metrics :=
  { unique_lines := 2, unique_stops := 5, quadrants := 4, avg_radius := 5,
    max_radius := 6, center_ratio := 0, hull_area := 30, angle_span := 200,
    turn_sum := 100, repeat_penalty := 0, short_leg_ratio := 0,
    boundary_hits := 2, boundary_ratio := 1, boundary_progress := 1,
    stop_repeat_total := 0, stop_repeat_max := 1, max_radius_per_quadrant := 7 }

/-- C2, counterexample: a scored label extension whose alighting stop is
an origin stop, arriving 180 minutes after the horizon start, with
quadrant bitmask 15 and `accept_fn` satisfied — yet not recorded as an
accepted candidate, because its bucket already holds a label (here: an
identical one, which dominates it under the City Loop dominance) and the
insertion is rejected.  The claim's "if and only if" fails in the
"if" direction: the four stated conditions hold but nothing is
recorded. -/
theorem c2_dominated_extension_not_recorded :
    (processScoredExtension c2Planner cityLoopConfig (fun _ => c2Metrics)
        [c2Label] c2Label c2Metrics "O").recorded = false
  ∧ c2Planner.hakata_stops.contains "O" = true
  ∧ c2Label.arrival ≥ START_TIME_MINUTES + 120
  ∧ c2Label.quadrant_mask = ALL_QUADRANTS_MASK
  ∧ cityLoopConfig.accept_fn c2Label c2Metrics = true := by
  have hdom : cityLoopDominance c2Label c2Metrics c2Label c2Metrics = true :=
    cityLoopDominance_iff.mpr ⟨⟨le_refl _, le_refl _, le_refl _, le_refl _⟩, le_refl _⟩
  have haccept : cityLoopConfig.accept_fn c2Label c2Metrics = true := by
    show cityLoopAccept c2Label c2Metrics = true
    unfold cityLoopAccept
    norm_num [c2Metrics]
  refine ⟨?_, by decide, by decide, by decide, haccept⟩
  simp [processScoredExtension, insertLabel, cityLoopConfig, hdom]

/-- C2, amended: a scored label extension is recorded as an accepted
candidate if and only if it survives insertion into its
`(round+1, alighting stop)` bucket under Pareto pruning AND its
alighting stop is an origin stop, its arrival is at least 120 minutes
after the horizon start, the quadrant requirement (when the config
demands it) is satisfied with bitmask 15, and `config.accept_fn` holds;
in particular every label recorded under the City Loop strategy has
bitmask 15 and satisfies the acceptance thresholds. -/
theorem c2_acceptance_requires_insertion :
    (∀ (planner : PlannerShared) (config : ChallengeConfig)
        (getMetrics : Label → Metrics) (bucket : List Label)
        (scored : Label) (metrics : Metrics) (toStop : String),
      (processScoredExtension planner config getMetrics bucket
          scored metrics toStop).recorded = true ↔
        ((processScoredExtension planner config getMetrics bucket
            scored metrics toStop).inserted = true
          ∧ planner.hakata_stops.contains toStop = true
          ∧ scored.arrival ≥ START_TIME_MINUTES + 120
          ∧ (config.require_quadrants = false
              ∨ scored.quadrant_mask = ALL_QUADRANTS_MASK)
          ∧ config.accept_fn scored metrics = true))
  ∧ (∀ (planner : PlannerShared) (getMetrics : Label → Metrics)
        (bucket : List Label) (scored : Label) (metrics : Metrics)
        (toStop : String),
      (processScoredExtension planner cityLoopConfig getMetrics bucket
          scored metrics toStop).recorded = true →
        scored.quadrant_mask = ALL_QUADRANTS_MASK
          ∧ metrics.quadrants = 4
          ∧ metrics.hull_area ≥ 25
          ∧ metrics.avg_radius ≥ 3
          ∧ metrics.angle_span ≥ 180
          ∧ metrics.boundary_ratio ≥ 3 / 10) := by
  have key : ∀ (planner : PlannerShared) (config : ChallengeConfig)
      (getMetrics : Label → Metrics) (bucket : List Label)
      (scored : Label) (metrics : Metrics) (toStop : String),
      (processScoredExtension planner config getMetrics bucket
          scored metrics toStop).recorded = true ↔
        ((processScoredExtension planner config getMetrics bucket
            scored metrics toStop).inserted = true
          ∧ planner.hakata_stops.contains toStop = true
          ∧ scored.arrival ≥ START_TIME_MINUTES + 120
          ∧ (config.require_quadrants = false
              ∨ scored.quadrant_mask = ALL_QUADRANTS_MASK)
          ∧ config.accept_fn scored metrics = true) := by
    intro planner config getMetrics bucket scored metrics toStop
    simp only [processScoredExtension, Bool.and_eq_true, decide_eq_true_eq,
      Bool.or_eq_true, Bool.not_eq_true', beq_iff_eq]
    tauto
  refine ⟨key, ?_⟩
  intro planner getMetrics bucket scored metrics toStop h
  rw [key] at h
  obtain ⟨_, _, _, hquad, haccept⟩ := h
  have hmask : scored.quadrant_mask = ALL_QUADRANTS_MASK := by
    rcases hquad with h | h
    · exact absurd h (by simp [cityLoopConfig])
    · exact h
  have haccept' : cityLoopAccept scored metrics = true := haccept
  simp only [cityLoopAccept, Bool.and_eq_true, decide_eq_true_eq,
    beq_iff_eq] at haccept'
  exact ⟨hmask, haccept'.1.1.1.1, haccept'.1.1.1.2, haccept'.1.1.2,
    haccept'.1.2, haccept'.2⟩

/-- C2, witness: the amended theorem applied at a concrete recorded
extension (empty bucket, so the insertion succeeds): the City Loop
thresholds follow. -/
theorem c2_acceptance_witness :
    c2Label.quadrant_mask = ALL_QUADRANTS_MASK
  ∧ c2Metrics.quadrants = 4
  ∧ c2Metrics.hull_area ≥ 25
  ∧ c2Metrics.avg_radius ≥ 3
  ∧ c2Metrics.angle_span ≥ 180
  ∧ c2Metrics.boundary_ratio ≥ 3 / 10 :=
  c2_acceptance_requires_insertion.2 c2Planner (fun _ => c2Metrics) [] c2Label
    c2Metrics "O"
    (by
      have haccept : cityLoopAccept c2Label c2Metrics = true := by
        unfold cityLoopAccept
        norm_num [c2Metrics]
      have harr : decide (c2Label.arrival ≥ START_TIME_MINUTES + 120) = true := by
        decide
      have hmask : (c2Label.quadrant_mask == ALL_QUADRANTS_MASK) = true := by
        decide
      simp [processScoredExtension, insertLabel, cityLoopConfig, scoreDescSort,
        haccept, harr, hmask, c2Planner])

/-! ## C3 — Pareto bucket insertion invariants -/

/-- C3: for every `(round, stop)` bucket and candidate: when some
existing label dominates the candidate, the insertion is rejected and
the bucket is returned unchanged; otherwise the insertion succeeds, the
resulting bucket is sorted by score descending, holds at most
`MAX_LABELS_PER_STOP = 6` labels, and consists only of the candidate and
of existing labels the candidate does not dominate (every existing label
the candidate dominates was removed before the re-sort/truncation). -/
theorem c3_insert_label_pareto (dom : Label → Metrics → Label → Metrics → Bool)
    (getMetrics : Label → Metrics) (bucket : List Label) (c : Label)
    (mc : Metrics) :
    ((∃ e ∈ bucket, dom e (getMetrics e) c mc = true) →
        insertLabel dom getMetrics bucket c mc = (false, bucket))
  ∧ ((∀ e ∈ bucket, dom e (getMetrics e) c mc = false) →
      (insertLabel dom getMetrics bucket c mc).1 = true
      ∧ (insertLabel dom getMetrics bucket c mc).2.length ≤ MAX_LABELS_PER_STOP
      ∧ List.Sorted (fun a b : Label => b.score ≤ a.score)
          (insertLabel dom getMetrics bucket c mc).2
      ∧ (∀ l ∈ (insertLabel dom getMetrics bucket c mc).2,
            l = c ∨ (l ∈ bucket ∧ dom c mc l (getMetrics l) = false))) := by
  constructor
  · rintro ⟨e, he, hdom⟩
    unfold insertLabel
    rw [if_pos]
    exact List.any_eq_true.mpr ⟨e, he, hdom⟩
  · intro hnone
    have hany : (bucket.any fun existing =>
        dom existing (getMetrics existing) c mc) = false := by
      rw [List.any_eq_false]
      intro e he
      simp [hnone e he]
    have hresult : insertLabel dom getMetrics bucket c mc =
        (true, (scoreDescSort ((bucket.filter
          (fun lbl => ¬ dom c mc lbl (getMetrics lbl))) ++ [c])).take
            MAX_LABELS_PER_STOP) := by
      unfold insertLabel
      rw [if_neg]
      simp [hany]
    rw [hresult]
    haveI : IsTotal Label (fun a b : Label => b.score ≤ a.score) :=
      ⟨fun a b => le_total b.score a.score⟩
    haveI : IsTrans Label (fun a b : Label => b.score ≤ a.score) :=
      ⟨fun _ _ _ hab hbc => le_trans hbc hab⟩
    refine ⟨rfl, ?_, ?_, ?_⟩
    · simp [List.length_take]
    · exact (List.sorted_insertionSort _ _).sublist (List.take_sublist _ _)
    · intro l hl
      have hl' : l ∈ scoreDescSort ((bucket.filter
          (fun lbl => ¬ dom c mc lbl (getMetrics lbl))) ++ [c]) :=
        List.take_subset _ _ hl
      have hl'' : l ∈ (bucket.filter
          (fun lbl => ¬ dom c mc lbl (getMetrics lbl))) ++ [c] :=
        (List.perm_insertionSort _ _).mem_iff.mp hl'
      rcases List.mem_append.mp hl'' with hmem | hmem
      · right
        have := List.mem_filter.mp hmem
        refine ⟨this.1, ?_⟩
        simpa using this.2
      · left
        simpa using hmem

/-- C3, witness: the theorem applied to an empty bucket (the second
branch, no dominating label exists): insertion succeeds. -/
theorem c3_insert_label_witness :
    (insertLabel (fun _ _ _ _ => false) (fun _ => c4Metrics) [] c4Label
      c4Metrics).1 = true :=
  ((c3_insert_label_pareto (fun _ _ _ _ => false) (fun _ => c4Metrics) []
      c4Label c4Metrics).2 (by simp)).1

/-! ## C6 — a RAPTOR plan can board its first leg away from the origin -/

/-- One trip over the stop pattern `O, A, O`: the `O → A` segment departs
at minute 400 (before the 07:00 horizon), the `A → O` segment departs at
545 and arrives at 550 (per `_build_route_timetables`, `arrivals[0] =
departures[0]` and the final departure equals the final arrival). -/
def c6Trip : RouteTrip :=
  { trip_id := "T1", departures := [400, 545, 550],
    arrivals := [400, 430, 550], segment_distances := [1, 1] }

def c6Route : RouteData :=
  { line_id := "L1", direction := "up", line_name := "Line1",
    stops := ["O", "A", "O"], trips := [c6Trip] }

def c6Planner : PlannerShared :=
  { stations := [("O", { code := "O", name := "Origin", lat := 33, lon := 130 }),
                 ("A", { code := "A", name := "StopA", lat := 34, lon := 131 })],
    hakata_stops := ["O"],
    quadrant_map := [("O", 1), ("A", 2)],
    routes := [("R1", c6Route)],
    routes_by_stop := [("O", ["R1"]), ("A", ["R1"])] }

/-- C6: on this network the Longest Duration RAPTOR run returns the plan
with the single leg `A → O`: the seed label held at the origin `O` cannot
board the trip's first segment (it departs before
`arrival + min_transfer_minutes`), and the segment walk then lets it
board mid-route at stop `A` — so the returned plan's first leg boards at
`A`, which is not an origin stop, contradicting the claim for the RAPTOR
strategy.  The result holds for every metric function, hence in
particular for the geometric `_label_metrics` of the source. -/
theorem c6_raptor_first_leg_not_origin (getMetrics : Label → Metrics) :
    ((runRaptorChallenge c6Planner (longestDurationConfig c6Planner.hakata_stops)
        getMetrics).map (fun p => p.legs.map (fun leg => (leg.from_code, leg.to_code))))
      = some [("A", "O")]
  ∧ c6Planner.hakata_stops = ["O"]
  ∧ "A" ∉ c6Planner.hakata_stops := by
  refine ⟨rfl, rfl, by simp [c6Planner]⟩

/-! ## C7 — the frontier eviction evicts the best entry, not the worst -/

def c7HighScoreEntry : PQEntry := { priority := -5, counter := 1, stateId := 1 }

def c7LowScoreEntry : PQEntry := { priority := -3, counter := 2, stateId := 2 }

/-- C7: with the queue at capacity (limit 1) holding the score-5 state,
pushing a score-3 state makes `heappushpop` remove the minimum of the
min-heap of `(priority = -score, counter)` keys — which is the
highest-scoring entry.  The retained entry is the worse one, the
opposite of the claimed evict-the-worst behaviour. -/
theorem c7_push_evicts_best_entry :
    pushBounded 1 [c7HighScoreEntry] c7LowScoreEntry = [c7LowScoreEntry]
  ∧ entryScore c7HighScoreEntry > entryScore c7LowScoreEntry
  ∧ c7HighScoreEntry ∉ pushBounded 1 [c7HighScoreEntry] c7LowScoreEntry := by
  refine ⟨by decide, by decide, by decide⟩

/-! ## C5 — `arrive > depart` under rollover normalization -/

def c5Stations : List (String × Station) :=
  [("F", { code := "F", name := "FromStop", lat := 33, lon := 130 }),
   ("T", { code := "T", name := "ToStop", lat := 34, lon := 131 })]

/-- A `segments_*.csv` row whose raw departure (`25:00` = minute 1500)
lies exactly 1440 minutes after its raw arrival (`01:00` = minute 60). -/
def c5BadRow : SegmentRow :=
  { line_id := "L", direction := "up", service_date := "20240101",
    from_stop := "F", to_stop := "T",
    depart := some "25:00", arrive := some "01:00",
    trip_id := some "TR1", segment_id := none,
    from_name := none, to_name := none }

/-- A well-formed row with a genuine midnight rollover (depart `08:00`,
arrive `07:30` read as next-day `31:30`). -/
def c5GoodRow : SegmentRow :=
  { line_id := "L", direction := "up", service_date := "20240101",
    from_stop := "F", to_stop := "T",
    depart := some "08:00", arrive := some "07:30",
    trip_id := some "TR2", segment_id := none,
    from_name := none, to_name := none }

/-- C5, counterexample: `load_segment_edges` normalizes a wrapped arrival
by a single `+= 1440`; on the row departing at `25:00` and arriving at
`01:00` this yields `arrive = 60 + 1440 = 1500 = depart`, so the
constructed `TripEdge` violates the claimed `arrive > depart`. -/
theorem c5_zero_duration_edge :
    (loadSegmentEdges ["L"] c5Stations [] (fun _ _ => 1) [c5BadRow]).map
        (fun e => (e.depart, e.arrive)) = [(1500, 1500)]
  ∧ ∀ e ∈ loadSegmentEdges ["L"] c5Stations [] (fun _ _ => 1) [c5BadRow],
      ¬ e.arrive > e.depart := by
  refine ⟨by decide, by decide⟩

theorem c5_segment_edges_traceback (eligible : List String)
    (stations : List (String × Station)) (lineNames : List (String × String))
    (hav : Station → Station → ℚ) (rows : List SegmentRow) :
    ∀ e ∈ loadSegmentEdges eligible stations lineNames hav rows,
      ∃ row ∈ rows, ∃ d a, parseSegmentMinutes row.depart = some d
        ∧ parseSegmentMinutes row.arrive = some a
        ∧ e.depart = d ∧ e.arrive = (if a ≤ d then a + 1440 else a) := by
  induction rows with
  | nil => intro e he; simp [loadSegmentEdges] at he
  | cons row rest ih =>
    intro e he
    rw [loadSegmentEdges] at he
    rcases List.mem_append.mp he with hh | ht
    · refine ⟨row, List.mem_cons_self _ _, ?_⟩
      split at hh
      · simp at hh
      · split at hh
        case _ stA stB hA hB =>
          split at hh
          case _ d a hd ha =>
            simp only [List.mem_singleton] at hh
            subst hh
            exact ⟨d, a, hd, ha, rfl, rfl⟩
          all_goals simp at hh
        all_goals simp at hh
    · obtain ⟨r, hr, rest_prop⟩ := ih e ht
      exact ⟨r, List.mem_cons_of_mem _ hr, rest_prop⟩

theorem c5_timetable_edges_strict (stations : List (String × Station))
    (lineNames : List (String × String)) (hav : Station → Station → ℚ)
    (line_id direction service_date trip_id : String) :
    ∀ l, ∀ e ∈ emitTimetableEdges stations lineNames hav line_id direction
        service_date trip_id l, e.arrive > e.depart := by
  intro l
  induction l with
  | nil => intro e he; simp [emitTimetableEdges] at he
  | cons x rest ih =>
    cases rest with
    | nil => intro e he; simp [emitTimetableEdges] at he
    | cons y rest' =>
      intro e he
      rw [emitTimetableEdges] at he
      rcases List.mem_append.mp he with hh | ht
      · split at hh
        case _ stA stB hA hB =>
          split at hh
          case _ d a hd ha =>
            split at hh
            · simp at hh
            · simp only [List.mem_singleton] at hh
              subst hh
              simpa using by omega
          all_goals simp at hh
        all_goals simp at hh
      · exact ih e ht

/-- C5, amended: (i) every `TripEdge` of the segments loader carries its
row's parsed departure unchanged, and its parsed arrival bumped by
exactly 1440 when it did not exceed the departure (addition, never a
modulo wrap); hence (ii) `arrive > depart` holds for every constructed
edge whenever the raw departure precedes the raw arrival by less than
1440 minutes — the single `+1440` cannot restore strictness beyond that
(see the counterexample); (iii) the timetable loader discards
non-increasing pairs, so its edges satisfy `arrive > depart`
unconditionally; and (iv) `normalize_time` resolves a rollover by adding
1440 to the accumulated offset. -/
theorem c5_rollover_normalization :
    (∀ (eligible : List String) (stations : List (String × Station))
        (lineNames : List (String × String)) (hav : Station → Station → ℚ)
        (rows : List SegmentRow),
      ∀ e ∈ loadSegmentEdges eligible stations lineNames hav rows,
        ∃ row ∈ rows, ∃ d a, parseSegmentMinutes row.depart = some d
          ∧ parseSegmentMinutes row.arrive = some a
          ∧ e.depart = d ∧ e.arrive = (if a ≤ d then a + 1440 else a))
  ∧ (∀ (eligible : List String) (stations : List (String × Station))
        (lineNames : List (String × String)) (hav : Station → Station → ℚ)
        (rows : List SegmentRow),
      (∀ row ∈ rows, ∀ d a, parseSegmentMinutes row.depart = some d →
          parseSegmentMinutes row.arrive = some a → d < a + 1440) →
      ∀ e ∈ loadSegmentEdges eligible stations lineNames hav rows,
        e.arrive > e.depart)
  ∧ (∀ (stations : List (String × Station))
        (lineNames : List (String × String)) (hav : Station → Station → ℚ)
        (line_id direction service_date trip_id : String)
        (rows : List TimetableRow),
      ∀ e ∈ rowsToEdges stations lineNames hav line_id direction service_date
          trip_id rows, e.arrive > e.depart)
  ∧ (∀ (st : Option Int × Int) (raw m : Int),
      (normalizeTime st (some raw)).2 = some m →
        m = raw + st.2 ∨ m = raw + st.2 + 1440) := by
  refine ⟨c5_segment_edges_traceback, ?_, ?_, ?_⟩
  · intro eligible stations lineNames hav rows hrows e he
    obtain ⟨row, hrow, d, a, hd, ha, hdep, harr⟩ :=
      c5_segment_edges_traceback eligible stations lineNames hav rows e he
    have hlt := hrows row hrow d a hd ha
    rw [hdep, harr]
    split <;> omega
  · intro stations lineNames hav line_id direction service_date trip_id rows
    exact fun e he => c5_timetable_edges_strict stations lineNames hav line_id
      direction service_date trip_id _ e he
  · intro st raw m h
    unfold normalizeTime at h
    rcases st with ⟨prev, roll⟩
    cases prev with
    | none =>
      simp only [Option.some.injEq] at h
      left; omega
    | some p =>
      simp only at h
      split at h <;> simp only [Option.some.injEq] at h <;> omega

/-- C5, witness: the amended theorem applied to the rollover row
(depart `08:00`, arrive `07:30` + 1440 = `31:30`), hypotheses discharged
by evaluating the parser. -/
theorem c5_rollover_witness :
    ∀ e ∈ loadSegmentEdges ["L"] c5Stations [] (fun _ _ => 1) [c5GoodRow],
      e.arrive > e.depart :=
  c5_rollover_normalization.2.1 ["L"] c5Stations [] (fun _ _ => 1) [c5GoodRow]
    (by
      intro row hrow d a hd ha
      simp only [List.mem_singleton] at hrow
      subst hrow
      have hd' : parseSegmentMinutes c5GoodRow.depart = some 480 := by decide
      have ha' : parseSegmentMinutes c5GoodRow.arrive = some 450 := by decide
      rw [hd'] at hd
      rw [ha'] at ha
      cases hd
      cases ha
      omega)

/-! ## C9 — the boundary sequence is not closed -/

/-- C9: two boundary candidates at bearings 10° and 20° around origin
`O`.  The generated sequence starts at the origin and is angularly
ordered, but the trailing copy of the origin appended by the source is
then removed by the uniqueness pass, so the sequence does not end at the
origin: it is not closed. -/
theorem c9_boundary_sequence_not_closed :
    boundarySequenceFromSelected ["O"] [(10, "B1"), (20, "B2")] = ["O", "B1", "B2"]
  ∧ (boundarySequenceFromSelected ["O"] [(10, "B1"), (20, "B2")]).head? = some "O"
  ∧ (boundarySequenceFromSelected ["O"] [(10, "B1"), (20, "B2")]).getLast? ≠ some "O" := by
  refine ⟨by decide, by decide, by decide⟩

/-! ## C8 — TSP stitcher validity and fallback -/

/-- C8: (i) a stitched leg list is valid only when it is non-empty, its
final arrival lies within 24 hours of the horizon start, and the
accumulated quadrant mask — origin quadrant included — is 15; (ii) every
plan `_assemble_city_loop_plan` returns passed that validation; (iii)
the candidate loop returns the first tour that assembles, skips tours
that do not, and returns `none` when no tour assembles; (iv) in that
case the loop challenge's `plan` falls through to beam search and
RAPTOR. -/
theorem c8_tsp_stitcher_validity :
    (∀ (quadMap : List (String × Nat)) (hakata : List String)
        (legs : List LegPlan) (t : Int),
      cityLoopPlanIsValid quadMap hakata legs t = true →
        legs ≠ [] ∧ t - START_TIME_MINUTES ≤ 24 * 60
          ∧ cityLoopQuadMask quadMap hakata legs = ALL_QUADRANTS_MASK)
  ∧ (∀ (quadMap : List (String × Nat)) (hakata : List String)
        (stations : List (String × Station))
        (p2p : String → String → Option (List LegPlan))
        (seq : List String) (plan : ChallengePlan),
      assembleCityLoopPlan quadMap hakata stations p2p seq = some plan →
        plan.legs ≠ []
          ∧ ∃ t, t - START_TIME_MINUTES ≤ 24 * 60
              ∧ cityLoopPlanIsValid quadMap hakata plan.legs t = true
              ∧ cityLoopQuadMask quadMap hakata plan.legs = ALL_QUADRANTS_MASK)
  ∧ (∀ (quadMap : List (String × Nat)) (hakata : List String)
        (stations : List (String × Station))
        (p2p : String → String → Option (List LegPlan))
        (seq : List String) (rest : List (List String)) (p : ChallengePlan),
      assembleCityLoopPlan quadMap hakata stations p2p seq = some p →
        planCityLoopTspOver quadMap hakata stations p2p (seq :: rest) = some p)
  ∧ (∀ (quadMap : List (String × Nat)) (hakata : List String)
        (stations : List (String × Station))
        (p2p : String → String → Option (List LegPlan))
        (seq : List String) (rest : List (List String)),
      assembleCityLoopPlan quadMap hakata stations p2p seq = none →
        planCityLoopTspOver quadMap hakata stations p2p (seq :: rest) =
          planCityLoopTspOver quadMap hakata stations p2p rest)
  ∧ (∀ (quadMap : List (String × Nat)) (hakata : List String)
        (stations : List (String × Station))
        (p2p : String → String → Option (List LegPlan))
        (candidates : List (List String)),
      (∀ s ∈ candidates, assembleCityLoopPlan quadMap hakata stations p2p s = none) →
        planCityLoopTspOver quadMap hakata stations p2p candidates = none)
  ∧ (∀ b r : Option ChallengePlan,
      (cityLoopPlanChain none b r).1 = b.orElse (fun _ => r)) := by
  have hvalid : ∀ (quadMap : List (String × Nat)) (hakata : List String)
      (legs : List LegPlan) (t : Int),
      cityLoopPlanIsValid quadMap hakata legs t = true →
        legs ≠ [] ∧ t - START_TIME_MINUTES ≤ 24 * 60
          ∧ cityLoopQuadMask quadMap hakata legs = ALL_QUADRANTS_MASK := by
    intro quadMap hakata legs t h
    unfold cityLoopPlanIsValid at h
    split at h
    · cases h
    · split at h
      · cases h
      · refine ⟨?_, by omega, by simpa using h⟩
        intro hnil
        subst hnil
        simp at *
  refine ⟨hvalid, ?_, ?_, ?_, ?_, ?_⟩
  · intro quadMap hakata stations p2p seq plan h
    unfold assembleCityLoopPlan at h
    split at h
    · cases h
    · split at h
      · cases h
      · rename_i st heq
        split at h
        · rename_i hv
          simp only [Option.some.injEq] at h
          subst h
          obtain ⟨h1, h2, h3⟩ := hvalid quadMap hakata st.1 st.2 hv
          exact ⟨h1, st.2, h2, hv, h3⟩
        · cases h
  · intro quadMap hakata stations p2p seq rest p h
    unfold planCityLoopTspOver
    rw [h]
  · intro quadMap hakata stations p2p seq rest h
    conv_lhs => rw [planCityLoopTspOver]
    rw [h]
  · intro quadMap hakata stations p2p candidates hall
    induction candidates with
    | nil => rfl
    | cons seq rest ih =>
      unfold planCityLoopTspOver
      rw [hall seq (List.mem_cons_self _ _)]
      exact ih (fun s hs => hall s (List.mem_cons_of_mem _ hs))
  · intro b r
    cases b <;> rfl

def c8Leg (f t : String) : LegPlan :=
  { line_id := "LX", line_name := "LineX", trip_id := "TX", from_code := f,
    from_name := f, to_code := t, to_name := t, depart := 500, arrive := 600,
    ride_minutes := 100, distance_km := 1, stop_hops := 1, path := [],
    from_lat := 0, from_lon := 0, to_lat := 0, to_lon := 0 }

def c8Legs : List LegPlan :=
  [c8Leg "O" "B1", c8Leg "B1" "B2", c8Leg "B2" "B3", c8Leg "B3" "O"]

def c8QuadMap : List (String × Nat) :=
  [("O", 1), ("B1", 2), ("B2", 4), ("B3", 8)]

/-- C8, witness: the validity direction applied to a concrete
four-quadrant stitched tour finishing at minute 600. -/
theorem c8_tsp_stitcher_witness :
    c8Legs ≠ [] ∧ (600 : Int) - START_TIME_MINUTES ≤ 24 * 60
      ∧ cityLoopQuadMask c8QuadMap ["O"] c8Legs = ALL_QUADRANTS_MASK :=
  c8_tsp_stitcher_validity.1 c8QuadMap ["O"] c8Legs 600 (by decide)

/-! ## C10 — the stitcher mutates (and restores) a shared field -/

/-- C10, counterexample: during a point-to-point RAPTOR call the
stitcher has overwritten the shared `hakata_stops` field with the single
tour origin, so the shared state at that intermediate point differs from
the state before the planning call (though it is restored afterwards). -/
theorem c10_intermediate_shared_state_differs :
    p2pDuringState ⟨["H1", "H2"]⟩ "B" ≠ (⟨["H1", "H2"]⟩ : SharedState)
  ∧ p2pAfterState ⟨["H1", "H2"]⟩ "B" = (⟨["H1", "H2"]⟩ : SharedState) := by
  refine ⟨by decide, rfl⟩

/-- C10, amended: each point-to-point RAPTOR call of the TSP stitcher
temporarily overwrites the shared `hakata_stops` field with the single
tour origin and writes the saved original back immediately after the
call, so the shared state after any sequence of such calls equals the
state before — but at intermediate points the shared field holds
`[from_stop]` instead of its original value. -/
theorem c10_shared_state_restored_after_calls :
    (∀ (s : SharedState) (f : String), p2pAfterState s f = s)
  ∧ (∀ (s : SharedState) (f : String), p2pDuringState s f = ⟨[f]⟩)
  ∧ (∀ (s : SharedState) (froms : List String), froms.foldl p2pAfterState s = s) := by
  refine ⟨fun s f => rfl, fun s f => rfl, fun s froms => ?_⟩
  induction froms generalizing s with
  | nil => rfl
  | cons f rest ih => simpa [List.foldl_cons, p2pAfterState] using ih s

end Reroute
